import Mathlib

/-!
Shallow embedding of the Smart Inventory backend: the product data model,
the Replicate generation client (aiService), and the six Express handlers
(create, list, get, update, delete, generate-description).

The store is modelled as a list of rows plus the SERIAL sequence counter.
Each handler is a pure function from the store (and explicit parameters for
each fallible external step: a possible persistence-layer failure message,
the behaviour of the remote generation service) to the new store, the HTTP
response, and the list of server-side error-log messages.
-/

namespace SmartInventory

/-- A row of the `products` table: id SERIAL, name, attributes, description
(nullable), created_at (timestamp, modelled as a Nat). -/
structure Product where
  id : Nat
  name : String
  attributes : String
  description : Option String
  createdAt : Nat
deriving Repr, DecidableEq

/-- The database state: the rows of the `products` table in insertion order,
and the next value of the SERIAL id sequence. -/
structure Store where
  rows : List Product
  nextId : Nat
deriving Repr, DecidableEq

/-- The JSON (or text) body of an HTTP response, as the handlers shape it. -/
inductive Body where
  | product (p : Product)
  | products (ps : List Product)
  | errorObj (msg : String)
  | messageObj (msg : String)
  | text (s : String)
  | empty
deriving Repr, DecidableEq

structure HttpResponse where
  status : Nat
  body : Body
deriving Repr, DecidableEq

/-- A handler outcome: new store state, HTTP response, server-side error log. -/
abbrev HandlerResult := Store × HttpResponse × List String

/-! ## Generation client (aiService.js) -/

/-- The fixed prompt template text before the product name. -/
def promptHead : String :=
  "\n        Please create an attractive and persuasive product description for an e-commerce website.\n        Use a professional and engaging tone.\n        The description should be in English.\n        Keep it to 2-3 short paragraphs.\n\n        Product Information:\n        - Product Name: "

/-- The fixed prompt template text between the name and the attributes. -/
def promptMid : String := "\n        - Characteristics/Attributes: "

/-- The fixed prompt template text after the attributes. -/
def promptTail : String := "\n    "

/-- The prompt template literal of `generateDescription`. -/
def buildPrompt (productName attributes : String) : String :=
  promptHead ++ productName ++ promptMid ++ attributes ++ promptTail

/-- Message of the error thrown when the joined output is empty. -/
def noTextMsg : String := "Replicate API did not return any text."

/-- Fallback message of the catch branch rethrow
(`error.message || "Failed to generate description from AI Replicate."`). -/
def replicateFallbackMsg : String :=
  "Failed to generate description from AI Replicate."

/-- The remote service either fails with an error message (the empty string
models an exception with no message) or returns a list of text fragments. -/
abbrev RemoteResponse := Except String (List String)

/-- JavaScript `String.prototype.trim`: drop leading and trailing
whitespace. -/
def trimChars (cs : List Char) : List Char :=
  ((cs.dropWhile Char.isWhitespace).reverse.dropWhile Char.isWhitespace).reverse

def jsTrim (s : String) : String := ⟨trimChars s.data⟩

/-- The try-block of `generateDescription`: run the remote call, join the
fragments with no separator, throw if empty, trim otherwise. -/
def tryRun (response : RemoteResponse) : Except String String :=
  match response with
  | .error e => .error e
  | .ok output =>
    let description := String.join output
    if description = "" then .error noTextMsg
    else .ok (jsTrim description)

/-- `generateDescription(productName, attributes)` from aiService.js.
`service` is the remote text-generation endpoint (prompt to response).
Returns the result together with the list of prompts sent to the remote
service (one entry per `replicate.run` call made). -/
def generateDescription (service : String → RemoteResponse)
    (productName attributes : String) : Except String String × List String :=
  let prompt := buildPrompt productName attributes
  let result : Except String String :=
    match tryRun (service prompt) with
    | .error e => .error (if e = "" then replicateFallbackMsg else e)
    | .ok d => .ok d
  (result, [prompt])

/-! ## CRUD handlers (index.js) -/

/-- JavaScript falsiness of an optional string body field:
absent or the empty string. -/
def isFalsy : Option String → Bool
  | none => true
  | some str => str == ""

/-- POST /api/products. `dbErr = some m` injects a persistence-layer failure
with message `m` into the INSERT query. -/
def createProduct (s : Store) (now : Nat) (name attributes : Option String)
    (dbErr : Option String) : HandlerResult :=
  if isFalsy name || isFalsy attributes then
    (s, ⟨400, .errorObj "Name and attributes are required"⟩, [])
  else
    match dbErr with
    | some m => (s, ⟨500, .text "Server Error"⟩, [m])
    | none =>
      let p : Product :=
        ⟨s.nextId, name.getD "", attributes.getD "", none, now⟩
      ({ rows := s.rows ++ [p], nextId := s.nextId + 1 },
       ⟨201, .product p⟩, [])

/-- ORDER BY id DESC. -/
def descById : Product → Product → Prop := fun p q => q.id ≤ p.id

instance : DecidableRel descById := fun p q => Nat.decLe q.id p.id

instance : IsTotal Product descById := ⟨fun p q => Nat.le_total q.id p.id⟩

instance : IsTrans Product descById :=
  ⟨fun _ _ _ h h2 => Nat.le_trans h2 h⟩

/-- The row set of `SELECT * FROM products ORDER BY id DESC`. -/
def orderByIdDesc (rows : List Product) : List Product :=
  rows.insertionSort descById

/-- GET /api/products. -/
def listProducts (s : Store) (dbErr : Option String) : HandlerResult :=
  match dbErr with
  | some m => (s, ⟨500, .text "Server Error"⟩, [m])
  | none => (s, ⟨200, .products (orderByIdDesc s.rows)⟩, [])

/-- GET /api/products/:id. -/
def getProduct (s : Store) (idParam : Nat) (dbErr : Option String) :
    HandlerResult :=
  match dbErr with
  | some m => (s, ⟨500, .text "Server Error"⟩, [m])
  | none =>
    match s.rows.find? (fun p => p.id == idParam) with
    | none => (s, ⟨404, .errorObj "Product not found"⟩, [])
    | some p => (s, ⟨200, .product p⟩, [])

/-- The row transformation of
`UPDATE products SET description = $1 WHERE id = $2`. -/
def setDesc (d : Option String) (idParam : Nat) (p : Product) : Product :=
  if p.id = idParam then { p with description := d } else p

/-- PUT /api/products/:id. The `description` field of the body is optional
(`none` models an absent field, stored as NULL). -/
def updateProduct (s : Store) (idParam : Nat) (description : Option String)
    (dbErr : Option String) : HandlerResult :=
  match dbErr with
  | some m => (s, ⟨500, .text "Server Error"⟩, [m])
  | none =>
    let updated := s.rows.map (setDesc description idParam)
    match updated.find? (fun p => p.id == idParam) with
    | none => ({ s with rows := updated },
               ⟨404, .errorObj "Product not found"⟩, [])
    | some p => ({ s with rows := updated }, ⟨200, .product p⟩, [])

/-- DELETE /api/products/:id. -/
def deleteProduct (s : Store) (idParam : Nat) (dbErr : Option String) :
    HandlerResult :=
  match dbErr with
  | some m => (s, ⟨500, .text "Server Error"⟩, [m])
  | none =>
    let returning := s.rows.filter (fun p => p.id == idParam)
    if returning.isEmpty then
      (s, ⟨404, .errorObj "Product not found"⟩, [])
    else
      ({ s with rows := s.rows.filter (fun p => !(p.id == idParam)) },
       ⟨200, .messageObj "Product successfully deleted"⟩, [])

/-- Fallback of the catch branch of the generate-description handler
(`err.message || "Server Error: Failed to generate description"`). -/
def handlerFallback : String := "Server Error: Failed to generate description"

/-- POST /api/products/:id/generate-description. `selectErr` and `updateErr`
inject persistence-layer failures into the SELECT and the UPDATE query;
`service` is the remote generation endpoint. -/
def generateDescriptionHandler (s : Store) (idParam : Nat)
    (selectErr : Option String) (service : String → RemoteResponse)
    (updateErr : Option String) : HandlerResult :=
  match selectErr with
  | some m => (s, ⟨500, .errorObj (if m = "" then handlerFallback else m)⟩, [m])
  | none =>
    match s.rows.find? (fun p => p.id == idParam) with
    | none => (s, ⟨404, .errorObj "Product not found"⟩, [])
    | some product =>
      match (generateDescription service product.name product.attributes).1 with
      | .error e =>
        (s, ⟨500, .errorObj (if e = "" then handlerFallback else e)⟩, [e])
      | .ok description =>
        match updateErr with
        | some m =>
          (s, ⟨500, .errorObj (if m = "" then handlerFallback else m)⟩, [m])
        | none =>
          let updated := s.rows.map (setDesc (some description) idParam)
          match updated.find? (fun p => p.id == idParam) with
          | some q => ({ s with rows := updated }, ⟨200, .product q⟩, [])
          | none => ({ s with rows := updated }, ⟨200, .empty⟩, [])

/-! ## Concrete fixtures -/

/-- The product of the generation-flow example in the spec. -/
def stussyProduct : Product :=
  ⟨1, "Stussy 8-Ball Tee", "Cotton, Black, Size L", none, 0⟩

def stussyStore : Store := ⟨[stussyProduct], 2⟩

/-- A product that already carries a stored description. -/
def demoProduct : Product := ⟨1, "Gizmo", "Red, Small", some "old words", 5⟩

def demoStore : Store := ⟨[demoProduct], 2⟩

/-! ## Helper lemmas -/

/-- Every error the generation client surfaces has a non-empty message. -/
theorem gen_error_ne_empty (service : String → RemoteResponse)
    (n a e : String)
    (h : (generateDescription service n a).1 = .error e) : e ≠ "" := by
  unfold generateDescription at h
  simp only at h
  cases htry : tryRun (service (buildPrompt n a)) with
  | ok d => rw [htry] at h; exact absurd h (by simp)
  | error e0 =>
    rw [htry] at h
    simp only [Except.error.injEq] at h
    subst h
    by_cases he0 : e0 = ""
    · simp only [he0, if_pos]
      decide
    · simp [he0]

/-- Finding by id commutes with the UPDATE row transformation, which
preserves ids. -/
theorem find?_map_setDesc (rows : List Product) (d : Option String) (i : Nat) :
    (rows.map (setDesc d i)).find? (fun q => q.id == i)
      = (rows.find? (fun q => q.id == i)).map (setDesc d i) := by
  induction rows with
  | nil => rfl
  | cons p tl ih =>
    by_cases h : p.id = i
    · have hb : (p.id == i) = true := by simp [h]
      simp [List.find?_cons, setDesc, h, hb]
    · have hb : (p.id == i) = false := by simp [h]
      simp [List.find?_cons, setDesc, h, hb, ih]

/-! ## Claim theorems -/

/-- C1: for every product id present in the store, if the generation client
fails, the generate-description handler responds 500 with the generation
error message as the error payload and performs no store write: the store
(including any previously stored description) is returned exactly as it
was. -/
theorem generation_failure_preserves_store (s : Store) (idParam : Nat)
    (p : Product) (service : String → RemoteResponse) (e : String)
    (hfind : s.rows.find? (fun q => q.id == idParam) = some p)
    (herr : (generateDescription service p.name p.attributes).1 = .error e) :
    generateDescriptionHandler s idParam none service none
      = (s, ⟨500, .errorObj e⟩, [e]) := by
  have hne : e ≠ "" := gen_error_ne_empty service p.name p.attributes e herr
  simp [generateDescriptionHandler, hfind, herr, hne]

theorem generation_failure_preserves_store_witness :
    generateDescriptionHandler demoStore 1 none
        (fun _ => .error "model overloaded") none
      = (demoStore, ⟨500, .errorObj "model overloaded"⟩,
         ["model overloaded"]) :=
  generation_failure_preserves_store demoStore 1 demoProduct
    (fun _ => .error "model overloaded") "model overloaded" rfl rfl

/-- C4: if the remote call fails, the client fails with the remote message
(or the fallback generic message when the remote message is empty); if the
remote call returns fragments whose concatenation is empty, the client fails
with the generic no-text message; and exactly one remote attempt is made per
invocation. -/
theorem generation_failure_policy (service : String → RemoteResponse)
    (n a : String) :
    (∀ m, service (buildPrompt n a) = .error m →
      (generateDescription service n a).1
        = .error (if m = "" then replicateFallbackMsg else m))
    ∧ (∀ frags, service (buildPrompt n a) = .ok frags →
        String.join frags = "" →
      (generateDescription service n a).1 = .error noTextMsg)
    ∧ (generateDescription service n a).2.length = 1 := by
  refine ⟨?_, ?_, rfl⟩
  · intro m hm
    simp [generateDescription, tryRun, hm]
  · intro frags hf hjoin
    have hne : noTextMsg ≠ "" := by decide
    simp [generateDescription, tryRun, hf, hjoin, hne]

theorem generation_failure_policy_witness :
    (generateDescription (fun _ => .error "") "Tee" "Cotton").1
      = .error replicateFallbackMsg
    ∧ (generateDescription (fun _ => .ok []) "Tee" "Cotton").1
      = .error noTextMsg
    ∧ (generateDescription (fun _ => .error "") "Tee" "Cotton").2.length = 1 := by
  refine ⟨?_, ?_, (generation_failure_policy (fun _ => .error "") "Tee" "Cotton").2.2⟩
  · have h := (generation_failure_policy (fun _ => .error "") "Tee" "Cotton").1 "" rfl
    simpa using h
  · exact (generation_failure_policy (fun _ => .ok []) "Tee" "Cotton").2.1 [] rfl rfl

/-- C2 counterexample: when the remote service returns an empty fragment
list, the client does not return the fragments concatenated and trimmed
(the empty string); it fails with an error instead. -/
theorem generation_empty_fragments_not_returned :
    (generateDescription (fun _ => .ok [])
        "Stussy 8-Ball Tee" "Cotton, Black, Size L").1
      = Except.error noTextMsg
    ∧ (generateDescription (fun _ => .ok [])
        "Stussy 8-Ball Tee" "Cotton, Black, Size L").1
      ≠ Except.ok (jsTrim (String.join [])) := by
  refine ⟨rfl, ?_⟩
  intro h
  rw [show (generateDescription (fun _ => .ok [])
      "Stussy 8-Ball Tee" "Cotton, Black, Size L").1
      = Except.error noTextMsg from rfl] at h
  exact absurd h (by simp)

/-- C2 (amended): for every name/attributes pair and every fragment sequence
whose concatenation is non-empty, the client sends one prompt embedding name
and attributes verbatim in the fixed template and returns the concatenation
(no separator) trimmed; in particular the fragments
["Great ", "shirt."] yield the stored and returned description
"Great shirt." through the generate-description handler. -/
theorem generation_concat_and_trim (n a : String) (frags : List String)
    (h : String.join frags ≠ "") :
    generateDescription (fun _ => .ok frags) n a
      = (.ok (jsTrim (String.join frags)),
         [promptHead ++ n ++ promptMid ++ a ++ promptTail])
    ∧ generateDescriptionHandler stussyStore 1 none
        (fun _ => .ok ["Great ", "shirt."]) none
      = ({ stussyStore with
            rows := [{ stussyProduct with description := some "Great shirt." }] },
         ⟨200, .product { stussyProduct with description := some "Great shirt." }⟩,
         []) := by
  constructor
  · simp [generateDescription, tryRun, buildPrompt, h]
  · decide

theorem generation_concat_and_trim_witness :
    generateDescription (fun _ => .ok ["Great ", "shirt."])
        "Stussy 8-Ball Tee" "Cotton, Black, Size L"
      = (.ok "Great shirt.",
         [promptHead ++ "Stussy 8-Ball Tee" ++ promptMid
            ++ "Cotton, Black, Size L" ++ promptTail]) := by
  have h := (generation_concat_and_trim "Stussy 8-Ball Tee"
      "Cotton, Black, Size L" ["Great ", "shirt."] (by decide)).1
  rw [show jsTrim (String.join ["Great ", "shirt."]) = "Great shirt." from by decide] at h
  exact h

/-- C3 counterexample: a persistence-layer failure inside the
generate-description handler is surfaced with its message verbatim in the
500 error payload, not as the generic "Server Error" response: internal
detail is leaked to the caller by that handler. -/
theorem store_failure_detail_leaked :
    (generateDescriptionHandler demoStore 1
        (some "ECONNREFUSED 10.0.0.5:5432") (fun _ => .ok ["x"]) none).2.1
      = ⟨500, .errorObj "ECONNREFUSED 10.0.0.5:5432"⟩
    ∧ Body.errorObj "ECONNREFUSED 10.0.0.5:5432" ≠ Body.text "Server Error" :=
  ⟨rfl, by simp⟩

/-- C3 (amended): for each of the five CRUD handlers, every
persistence-layer failure yields the generic 500 "Server Error" response,
independent of the failure, with the failure message only logged
server-side; the generate-description handler is excluded, as it forwards
the message to the caller. -/
theorem crud_store_failure_generic (s : Store) (now idParam : Nat)
    (n a : String) (d : Option String) (m : String)
    (hn : n ≠ "") (ha : a ≠ "") :
    createProduct s now (some n) (some a) (some m)
      = (s, ⟨500, .text "Server Error"⟩, [m])
    ∧ listProducts s (some m) = (s, ⟨500, .text "Server Error"⟩, [m])
    ∧ getProduct s idParam (some m) = (s, ⟨500, .text "Server Error"⟩, [m])
    ∧ updateProduct s idParam d (some m)
      = (s, ⟨500, .text "Server Error"⟩, [m])
    ∧ deleteProduct s idParam (some m)
      = (s, ⟨500, .text "Server Error"⟩, [m]) := by
  refine ⟨?_, rfl, rfl, rfl, rfl⟩
  simp [createProduct, isFalsy, hn, ha]

theorem crud_store_failure_generic_witness :
    createProduct demoStore 9 (some "N") (some "A") (some "disk full")
      = (demoStore, ⟨500, .text "Server Error"⟩, ["disk full"]) :=
  (crud_store_failure_generic demoStore 9 1 "N" "A" none "disk full"
    (by decide) (by decide)).1

/-- C5: updating the description of a present id returns 200 with the full
updated record whose description is exactly the supplied value and whose
id, name, attributes and createdAt are unchanged, and stores exactly that
record; for an absent id it returns 404. -/
theorem update_description_spec (s : Store) (idParam : Nat) (d : String) :
    (∀ p, s.rows.find? (fun q => q.id == idParam) = some p →
      updateProduct s idParam (some d) none
        = ({ s with rows := s.rows.map (setDesc (some d) idParam) },
           ⟨200, .product { p with description := some d }⟩, [])
      ∧ (s.rows.map (setDesc (some d) idParam)).find? (fun q => q.id == idParam)
        = some { p with description := some d }
      ∧ ({ p with description := some d }).id = p.id
      ∧ ({ p with description := some d }).name = p.name
      ∧ ({ p with description := some d }).attributes = p.attributes
      ∧ ({ p with description := some d }).createdAt = p.createdAt
      ∧ ({ p with description := some d }).description = some d)
    ∧ (s.rows.find? (fun q => q.id == idParam) = none →
      (updateProduct s idParam (some d) none).2
        = (⟨404, .errorObj "Product not found"⟩, [])) := by
  constructor
  · intro p hp
    have hid : p.id = idParam := by simpa using List.find?_some hp
    have hfind := find?_map_setDesc s.rows (some d) idParam
    rw [hp] at hfind
    simp only [Option.map_some'] at hfind
    rw [show setDesc (some d) idParam p = { p with description := some d } from by
      simp [setDesc, hid]] at hfind
    exact ⟨by simp [updateProduct, hfind], hfind, rfl, rfl, rfl, rfl, rfl⟩
  · intro hp
    have hfind := find?_map_setDesc s.rows (some d) idParam
    rw [hp] at hfind
    simp [updateProduct, hfind]

theorem update_description_spec_witness :
    updateProduct demoStore 1 (some "better words") none
      = ({ demoStore with
            rows := [{ demoProduct with description := some "better words" }] },
         ⟨200, .product { demoProduct with description := some "better words" }⟩,
         [])
    ∧ (updateProduct demoStore 7 (some "better words") none).2
      = (⟨404, .errorObj "Product not found"⟩, []) := by
  have h := ((update_description_spec demoStore 1 "better words").1
    demoProduct rfl).1
  have h2 := (update_description_spec demoStore 7 "better words").2 rfl
  exact ⟨h.trans (by decide), h2⟩

/-- C6: a create request whose name or attributes is missing or empty yields
400 with a descriptive error message and writes nothing: the store is
returned unchanged. -/
theorem create_missing_field_rejected (s : Store) (now : Nat)
    (name attributes : Option String) (dbErr : Option String)
    (h : isFalsy name = true ∨ isFalsy attributes = true) :
    createProduct s now name attributes dbErr
      = (s, ⟨400, .errorObj "Name and attributes are required"⟩, []) := by
  rcases h with h | h <;> simp [createProduct, h]

theorem create_missing_field_rejected_witness :
    createProduct demoStore 9 none (some "Red") none
      = (demoStore, ⟨400, .errorObj "Name and attributes are required"⟩, []) :=
  create_missing_field_rejected demoStore 9 none (some "Red") none (Or.inl rfl)

/-- C7: creating with both fields present and non-empty returns 201 with the
created record: its id is the freshly assigned sequence value, distinct from
the id of every stored record, its createdAt is system-assigned, and its
description is null. -/
theorem create_valid_spec (s : Store) (now : Nat) (n a : String)
    (hwf : ∀ p ∈ s.rows, p.id < s.nextId) (hn : n ≠ "") (ha : a ≠ "") :
    createProduct s now (some n) (some a) none
      = ({ rows := s.rows ++ [⟨s.nextId, n, a, none, now⟩],
           nextId := s.nextId + 1 },
         ⟨201, .product ⟨s.nextId, n, a, none, now⟩⟩, [])
    ∧ ∀ p ∈ s.rows, p.id ≠ s.nextId := by
  constructor
  · simp [createProduct, isFalsy, hn, ha]
  · intro p hp
    exact Nat.ne_of_lt (hwf p hp)

theorem create_valid_spec_witness :
    createProduct demoStore 9 (some "Lamp") (some "Brass") none
      = ({ rows := [demoProduct, ⟨2, "Lamp", "Brass", none, 9⟩], nextId := 3 },
         ⟨201, .product ⟨2, "Lamp", "Brass", none, 9⟩⟩, [])
    ∧ ∀ p ∈ demoStore.rows, p.id ≠ demoStore.nextId := by
  have h := create_valid_spec demoStore 9 "Lamp" "Brass"
    (by decide) (by decide) (by decide)
  exact ⟨h.1.trans (by decide), h.2⟩

/-- The three-creation scenario of the spec: R1, R2, R3 created in order. -/
def emptyStore : Store := ⟨[], 1⟩

def storeAfterR1 : Store :=
  (createProduct emptyStore 10 (some "R1") (some "alpha") none).1

def storeAfterR2 : Store :=
  (createProduct storeAfterR1 11 (some "R2") (some "beta") none).1

def storeAfterR3 : Store :=
  (createProduct storeAfterR2 12 (some "R3") (some "gamma") none).1

/-- C8: listing returns all stored records ordered by id descending: the
returned row set is a permutation of the rows of the store, sorted descending by
id; after creating R1, R2, R3 in that order, listing returns them as
[R3, R2, R1]. -/
theorem list_products_desc (s : Store) :
    listProducts s none = (s, ⟨200, .products (orderByIdDesc s.rows)⟩, [])
    ∧ (orderByIdDesc s.rows).Perm s.rows
    ∧ List.Sorted descById (orderByIdDesc s.rows)
    ∧ (listProducts storeAfterR3 none).2.1
      = ⟨200, .products [⟨3, "R3", "gamma", none, 12⟩,
                         ⟨2, "R2", "beta", none, 11⟩,
                         ⟨1, "R1", "alpha", none, 10⟩]⟩ :=
  ⟨rfl, List.perm_insertionSort descById s.rows,
   List.sorted_insertionSort descById s.rows, by decide⟩

/-- C9: deleting a present id returns 200 with the confirmation payload
(not the deleted record) and removes the record, so a subsequent get on the
same id returns 404; deleting an absent id returns 404, not a silent
200. -/
theorem delete_spec (s : Store) (idParam : Nat) :
    (s.rows.any (fun p => p.id == idParam) = true →
      deleteProduct s idParam none
        = ({ s with rows := s.rows.filter (fun p => !(p.id == idParam)) },
           ⟨200, .messageObj "Product successfully deleted"⟩, [])
      ∧ (getProduct { s with rows := s.rows.filter (fun p => !(p.id == idParam)) }
          idParam none).2
        = (⟨404, .errorObj "Product not found"⟩, []))
    ∧ (s.rows.any (fun p => p.id == idParam) = false →
      deleteProduct s idParam none
        = (s, ⟨404, .errorObj "Product not found"⟩, [])) := by
  constructor
  · intro hany
    have hne : (s.rows.filter (fun p => p.id == idParam)).isEmpty = false := by
      rcases List.any_eq_true.mp hany with ⟨x, hx, hpx⟩
      have hmem : x ∈ s.rows.filter (fun p => p.id == idParam) :=
        List.mem_filter.mpr ⟨hx, hpx⟩
      cases hfe : s.rows.filter (fun p => p.id == idParam) with
      | nil => rw [hfe] at hmem; cases hmem
      | cons y tl => rfl
    have hfind : (s.rows.filter (fun p => !(p.id == idParam))).find?
        (fun p => p.id == idParam) = none := by
      apply List.find?_eq_none.mpr
      intro x hx
      have hx2 := (List.mem_filter.mp hx).2
      simp at hx2 ⊢
      exact hx2
    exact ⟨by simp [deleteProduct, hne], by simp [getProduct, hfind]⟩
  · intro hany
    have hemp : (s.rows.filter (fun p => p.id == idParam)).isEmpty = true := by
      have hnil : s.rows.filter (fun p => p.id == idParam) = [] := by
        apply List.filter_eq_nil_iff.mpr
        intro x hx
        have := List.any_eq_false.mp hany x hx
        simp at this ⊢
        exact this
      simp [hnil]
    simp [deleteProduct, hemp]

theorem delete_spec_witness :
    deleteProduct demoStore 1 none
      = (⟨[], 2⟩, ⟨200, .messageObj "Product successfully deleted"⟩, [])
    ∧ (getProduct ⟨[], 2⟩ 1 none).2
      = (⟨404, .errorObj "Product not found"⟩, [])
    ∧ deleteProduct demoStore 7 none
      = (demoStore, ⟨404, .errorObj "Product not found"⟩, []) := by
  have h := (delete_spec demoStore 1).1 (by decide)
  have h2 := (delete_spec demoStore 7).2 (by decide)
  exact ⟨h.1.trans (by decide), h.2, h2⟩

/-- C10: an update request whose body has no description field on a present
id is not rejected with 400: it returns 200 and stores NULL as the
description, erasing any previously stored description. -/
theorem update_missing_description_spec (s : Store) (idParam : Nat)
    (p : Product)
    (hp : s.rows.find? (fun q => q.id == idParam) = some p) :
    updateProduct s idParam none none
      = ({ s with rows := s.rows.map (setDesc none idParam) },
         ⟨200, .product { p with description := none }⟩, [])
    ∧ (s.rows.map (setDesc none idParam)).find? (fun q => q.id == idParam)
      = some { p with description := none } := by
  have hid : p.id = idParam := by simpa using List.find?_some hp
  have hfind := find?_map_setDesc s.rows none idParam
  rw [hp] at hfind
  simp only [Option.map_some'] at hfind
  rw [show setDesc none idParam p = { p with description := none } from by
    simp [setDesc, hid]] at hfind
  exact ⟨by simp [updateProduct, hfind], hfind⟩

theorem update_missing_description_spec_witness :
    updateProduct demoStore 1 none none
      = ({ demoStore with rows := [{ demoProduct with description := none }] },
         ⟨200, .product { demoProduct with description := none }⟩, []) := by
  have h := (update_missing_description_spec demoStore 1 demoProduct rfl).1
  exact h.trans (by decide)

end SmartInventory
